import Mathlib

/-!
Verification of the color-scheme preference stores.

This file gives a shallow embedding of the three cooperating stores of the
repository (`PreferredSchemeStorage`, `CurrentColorSchemeStorage`, and the
event emitter they notify through) and proves the specified properties.

Browser state is made explicit: `localStorage` / `sessionStorage` reads become
`Option String` arguments, writes become lists of written values, and
subscriber notifications become lists of emitted payloads.  The current-scheme
setter, which can throw, returns `Except String`.
-/

namespace ColorScheme

/-- The two concrete schemes: the value is the string `dark` or `light`. -/
def isTwoState (s : String) : Prop := s = "dark" ∨ s = "light"

/-- The three accepted scheme values `dark`, `light`, `auto`. -/
def isThreeState (s : String) : Prop := s = "dark" ∨ s = "light" ∨ s = "auto"

instance (s : String) : Decidable (isTwoState s) := by
  unfold isTwoState; infer_instance

instance (s : String) : Decidable (isThreeState s) := by
  unfold isThreeState; infer_instance

/-- In-memory state of `PreferredSchemeStorage`: the private field
`#preferredColorScheme`. -/
structure PreferredSchemeStorage where
  preferredColorScheme : String
deriving DecidableEq

/-- The constructor of `PreferredSchemeStorage`: `data` is the value read from
`localStorage.getItem("preferredColorScheme")` (`none` for `null`).  Returns
the constructed store together with the list of values written to the
`preferredColorScheme` key of `localStorage`. -/
def PreferredSchemeStorage.construct (data : Option String) :
    PreferredSchemeStorage × List String :=
  match data with
  | some s =>
    if s = "dark" ∨ s = "light" ∨ s = "auto" then
      ({ preferredColorScheme := s }, [s])
    else
      ({ preferredColorScheme := "auto" }, ["auto"])
  | none => ({ preferredColorScheme := "auto" }, ["auto"])

/-- The `set scheme` accessor of `PreferredSchemeStorage`.  Returns the new
store state, the values written to `localStorage`, and the payloads emitted on
`preferred-scheme-change`.  The source performs no validation here. -/
def PreferredSchemeStorage.setScheme (st : PreferredSchemeStorage)
    (scheme : String) : PreferredSchemeStorage × List String × List String :=
  if scheme = st.preferredColorScheme then
    (st, [], [])
  else
    ({ preferredColorScheme := scheme }, [scheme], [scheme])

/-- The `storage` event listener installed by the `PreferredSchemeStorage`
constructor (cross-tab synchronization).  `key` and `newValue` are the fields
of the native event (`newValue` is `none` for `null`).  Returns the new store
state, the values written to `localStorage` (always none), and the payloads
emitted on `preferred-scheme-change`.  Note that the source emits the raw
`event.newValue`, so the payload type is `Option String`. -/
def PreferredSchemeStorage.storageEvent (st : PreferredSchemeStorage)
    (key : String) (newValue : Option String) :
    PreferredSchemeStorage × List String × List (Option String) :=
  if key = "preferredColorScheme" then
    let value : String :=
      match newValue with
      | some s => if s = "" then "auto" else s
      | none => "auto"
    let validatedValue : String :=
      if value = "dark" ∨ value = "light" ∨ value = "auto" then value
      else "auto"
    if validatedValue = st.preferredColorScheme then
      (st, [], [])
    else
      ({ preferredColorScheme := validatedValue }, [], [newValue])
  else (st, [], [])

/-- In-memory state of `CurrentColorSchemeStorage`: the private field
`#currentColorScheme` and the two public theme-name fields. -/
structure CurrentColorSchemeStorage where
  currentColorScheme : String
  darkThemeName : String := "dark"
  lightThemeName : String := "light"
deriving DecidableEq

/-- The constructor of `CurrentColorSchemeStorage`.  `systemColorScheme` and
`preferredColorScheme` are the values read from the two injected storages;
`sessionValue` is `sessionStorage.getItem("currentColorScheme")`.  The
`getItem(...) || "unknown"` idiom maps both `null` and the empty string to
`"unknown"`. -/
def CurrentColorSchemeStorage.construct
    (systemColorScheme preferredColorScheme : String)
    (sessionValue : Option String) : CurrentColorSchemeStorage :=
  let loaded0 : String :=
    match sessionValue with
    | some s => if s = "" then "unknown" else s
    | none => "unknown"
  let loadedColorScheme : String :=
    if ¬(loaded0 = "dark" ∨ loaded0 = "light") then "unknown" else loaded0
  { currentColorScheme :=
      if loadedColorScheme = "unknown" then
        if preferredColorScheme = "auto" then systemColorScheme
        else preferredColorScheme
      else loadedColorScheme
    darkThemeName := "dark"
    lightThemeName := "light" }

/-- The error message thrown by the `set scheme` accessor of
`CurrentColorSchemeStorage` (apostrophes written as `\x27`). -/
def colorSchemeErrorMsg : String :=
  "Color scheme must be either \x27dark\x27, \x27light\x27 or \x27auto\x27."

/-- The `set scheme` accessor of `CurrentColorSchemeStorage`.
`preferredColorScheme` and `systemColorScheme` are the values the two injected
storages report at call time.  On success, returns the new store state, the
values written to the `currentColorScheme` key of `sessionStorage`, and the
payloads emitted on `current-scheme-change`; on an invalid input it throws. -/
def CurrentColorSchemeStorage.setScheme (st : CurrentColorSchemeStorage)
    (preferredColorScheme systemColorScheme : String) (colorScheme : String) :
    Except String (CurrentColorSchemeStorage × List String × List String) :=
  if colorScheme ≠ "dark" ∧ colorScheme ≠ "light" ∧ colorScheme ≠ "auto" then
    Except.error colorSchemeErrorMsg
  else
    let c1 : String :=
      if colorScheme = "auto" then
        if preferredColorScheme = "auto" then systemColorScheme
        else preferredColorScheme
      else colorScheme
    if c1 = st.currentColorScheme then
      Except.ok (st, [], [])
    else
      Except.ok ({ st with currentColorScheme := c1 }, [c1], [c1])

/-- `getDefaultTheme()` of `CurrentColorSchemeStorage`: a pure function of the
store state (the source body only reads fields; it performs no writes and no
notifications). -/
def CurrentColorSchemeStorage.getDefaultTheme
    (st : CurrentColorSchemeStorage) : String :=
  if st.currentColorScheme = "dark" then st.darkThemeName
  else st.lightThemeName

/-- The value the current-scheme setter resolves a (valid) input to, as read
off the reassignment chain in the source. -/
def resolveScheme (preferredColorScheme systemColorScheme v : String) :
    String :=
  if v = "auto" then
    if preferredColorScheme = "auto" then systemColorScheme
    else preferredColorScheme
  else v

lemma construct_currentColorScheme (sys pref : String)
    (sess : Option String) :
    (CurrentColorSchemeStorage.construct sys pref sess).currentColorScheme =
      if sess = some ("dark") then "dark"
      else if sess = some ("light") then "light"
      else if pref = "auto" then sys else pref := by
  unfold CurrentColorSchemeStorage.construct
  rcases sess with _ | s
  · simp
  · by_cases h0 : s = ""
    · subst h0; simp
    · by_cases h1 : s = "dark"
      · subst h1; simp
      · by_cases h2 : s = "light"
        · subst h2; simp
        · simp [h0, h1, h2]

lemma setScheme_eq_resolve (st : CurrentColorSchemeStorage)
    (pref sys v : String) (hv : isThreeState v) :
    st.setScheme pref sys v =
      (if resolveScheme pref sys v = st.currentColorScheme then
        Except.ok (st, [], [])
      else
        Except.ok ({ st with currentColorScheme := resolveScheme pref sys v },
          [resolveScheme pref sys v], [resolveScheme pref sys v])) := by
  unfold CurrentColorSchemeStorage.setScheme resolveScheme
  rcases hv with h | h | h <;> subst h <;> simp

lemma resolveScheme_twoState (pref sys v : String) (hp : isThreeState pref)
    (hs : isTwoState sys) (hv : isThreeState v) :
    isTwoState (resolveScheme pref sys v) := by
  unfold resolveScheme
  rcases hv with h | h | h <;> subst h
  · simp [isTwoState]
  · simp [isTwoState]
  · rcases hp with h | h | h <;> subst h <;> simp [isTwoState]
    exact hs

/-- C1: for every construction of `CurrentColorSchemeStorage`, if the
session-scoped cached value is exactly `dark` or `light` the initial scheme
equals that cached value (preferred and system inputs ignored); otherwise, if
the preferred scheme is `dark` or `light` the initial scheme equals it;
otherwise (preferred is `auto`) the initial scheme equals the system scheme. -/
theorem claim_C1_init_cascade (sys pref : String) (sess : Option String) :
    (sess = some ("dark") →
      (CurrentColorSchemeStorage.construct sys pref sess).currentColorScheme =
        "dark")
    ∧ (sess = some ("light") →
      (CurrentColorSchemeStorage.construct sys pref sess).currentColorScheme =
        "light")
    ∧ (¬(sess = some ("dark") ∨ sess = some ("light")) → isTwoState pref →
      (CurrentColorSchemeStorage.construct sys pref sess).currentColorScheme =
        pref)
    ∧ (¬(sess = some ("dark") ∨ sess = some ("light")) → pref = "auto" →
      (CurrentColorSchemeStorage.construct sys pref sess).currentColorScheme =
        sys) := by
  refine ⟨?_, ?_, ?_, ?_⟩
  · intro h; rw [construct_currentColorScheme]; simp [h]
  · intro h; rw [construct_currentColorScheme, h]; simp
  · intro h hp
    push_neg at h
    rw [construct_currentColorScheme]
    rcases hp with hp | hp <;> subst hp <;> simp [h.1, h.2]
  · intro h hp
    push_neg at h
    rw [construct_currentColorScheme]
    subst hp
    simp [h.1, h.2]

/-- Witness for C1: with no session cache and preferred scheme `light`, the
store initializes to `light` even though the system reports `dark`. -/
theorem claim_C1_witness :
    (CurrentColorSchemeStorage.construct ("dark") ("light")
      none).currentColorScheme = "light" :=
  (claim_C1_init_cascade ("dark") ("light") none).2.2.1 (by decide) (by decide)

/-- C2 (counterexample): the claim says every scheme setter raises an error on
an invalid input and leaves state unchanged, but the `PreferredSchemeStorage`
setter performs no validation: given `"blue"` it updates the in-memory value,
writes to `localStorage`, and notifies subscribers. -/
theorem claim_C2_counterexample :
    PreferredSchemeStorage.setScheme { preferredColorScheme := "auto" }
        ("blue") =
      ({ preferredColorScheme := "blue" }, ["blue"], ["blue"]) := by
  decide

/-- C2 (amended): for every input outside the accepted set, the
`CurrentColorSchemeStorage` scheme setter raises the error naming the accepted
set and leaves all state unchanged (no update, no write, no notification);
the `PreferredSchemeStorage` scheme setter performs no validation and treats
an invalid value like any other different value: it stores it, persists it,
and notifies subscribers with it. -/
theorem claim_C2_amended_validation (st : CurrentColorSchemeStorage)
    (pst : PreferredSchemeStorage) (pref sys v : String)
    (hv : ¬ isThreeState v) :
    st.setScheme pref sys v = Except.error colorSchemeErrorMsg
    ∧ (v ≠ pst.preferredColorScheme →
        pst.setScheme v = ({ preferredColorScheme := v }, [v], [v])) := by
  constructor
  · unfold CurrentColorSchemeStorage.setScheme
    unfold isThreeState at hv
    push_neg at hv
    rw [if_pos hv]
  · intro hne
    unfold PreferredSchemeStorage.setScheme
    rw [if_neg hne]

/-- Witness for C2 (amended), at the invalid input `"blue"`. -/
theorem claim_C2_witness :
    CurrentColorSchemeStorage.setScheme { currentColorScheme := "light" }
        ("auto") ("dark") ("blue") = Except.error colorSchemeErrorMsg
    ∧ PreferredSchemeStorage.setScheme { preferredColorScheme := "auto" }
        ("blue") =
        ({ preferredColorScheme := "blue" }, ["blue"], ["blue"]) := by
  have h := claim_C2_amended_validation { currentColorScheme := "light" }
    { preferredColorScheme := "auto" } ("auto") ("dark") ("blue") (by decide)
  exact ⟨h.1, h.2 (by decide)⟩

/-- C3: writing `auto` to the current-scheme setter first resolves it to the
preferred scheme if that is concrete (`dark`/`light`), else to the system
scheme; the no-op check compares this resolved value with the cached value,
and only when they differ does the setter persist to the session store,
update the cache, and notify subscribers with the new value. -/
theorem claim_C3_auto_write (st : CurrentColorSchemeStorage)
    (pref sys : String) (hp : isThreeState pref) :
    ((if isTwoState pref then pref else sys) = st.currentColorScheme →
      st.setScheme pref sys ("auto") = Except.ok (st, [], []))
    ∧ ((if isTwoState pref then pref else sys) ≠ st.currentColorScheme →
      st.setScheme pref sys ("auto") =
        Except.ok
          ({ st with currentColorScheme :=
              (if isTwoState pref then pref else sys) },
            [(if isTwoState pref then pref else sys)],
            [(if isTwoState pref then pref else sys)])) := by
  have hv : isThreeState ("auto") := by decide
  have hr : resolveScheme pref sys ("auto") =
      if isTwoState pref then pref else sys := by
    unfold resolveScheme
    rcases hp with h | h | h <;> subst h <;> simp [isTwoState]
  constructor
  · intro h
    rw [setScheme_eq_resolve st pref sys ("auto") hv, hr, if_pos h]
  · intro h
    rw [setScheme_eq_resolve st pref sys ("auto") hv, hr, if_neg h]

/-- Witness for C3: writing `auto` with preferred `auto` and system `dark`
resolves to `dark`, which differs from the cached `light`, so the store
persists, updates, and notifies with `dark`. -/
theorem claim_C3_witness :
    CurrentColorSchemeStorage.setScheme { currentColorScheme := "light" }
        ("auto") ("dark") ("auto") =
      Except.ok ({ currentColorScheme := "dark" }, ["dark"], ["dark"]) := by
  have h := (claim_C3_auto_write { currentColorScheme := "light" } ("auto")
    ("dark") (by decide)).2 (by decide)
  simpa using h

/-- C4: constructing `PreferredSchemeStorage` adopts the persisted value if it
is exactly `dark`, `light` or `auto`; for any other value (including absent)
it sets the in-memory scheme to `auto` and persists `auto`; afterwards the
in-memory scheme is always one of the three values and the value persisted by
the constructor equals it (the store is repaired). -/
theorem claim_C4_pref_construct (data : Option String) :
    (∀ s, data = some s → isThreeState s →
      PreferredSchemeStorage.construct data =
        ({ preferredColorScheme := s }, [s]))
    ∧ ((∀ s, data = some s → ¬ isThreeState s) →
      PreferredSchemeStorage.construct data =
        ({ preferredColorScheme := "auto" }, ["auto"]))
    ∧ isThreeState
        (PreferredSchemeStorage.construct data).1.preferredColorScheme
    ∧ (PreferredSchemeStorage.construct data).2 =
        [(PreferredSchemeStorage.construct data).1.preferredColorScheme] := by
  rcases data with _ | s
  · refine ⟨?_, fun _ => rfl, by decide, rfl⟩
    rintro s h
    exact absurd h (by simp)
  · by_cases h : s = "dark" ∨ s = "light" ∨ s = "auto"
    · refine ⟨?_, ?_, ?_, ?_⟩
      · rintro t ht _
        injection ht with hst
        subst hst
        simp only [PreferredSchemeStorage.construct, if_pos h]
      · intro hn
        exact absurd h (hn s rfl)
      · simp only [PreferredSchemeStorage.construct, if_pos h]
        exact h
      · simp only [PreferredSchemeStorage.construct, if_pos h]
    · refine ⟨?_, ?_, ?_, ?_⟩
      · rintro t ht hts
        injection ht with hst
        subst hst
        exact absurd hts h
      · intro _
        simp only [PreferredSchemeStorage.construct, if_neg h]
      · simp only [PreferredSchemeStorage.construct, if_neg h]
        decide
      · simp only [PreferredSchemeStorage.construct, if_neg h]

/-- Witness for C4: a persisted `"garbage"` value is replaced by `auto` in
memory and `auto` is re-persisted. -/
theorem claim_C4_witness :
    PreferredSchemeStorage.construct (some ("garbage")) =
      ({ preferredColorScheme := "auto" }, ["auto"]) :=
  (claim_C4_pref_construct (some ("garbage"))).2.1 (by
    rintro s hs
    injection hs with hs'
    subst hs'
    decide)

/-- C5: setting a store's scheme to the value it already resolves to is a
no-op: the in-memory value is unchanged, no storage write occurs, and no
subscriber notification fires — for `PreferredSchemeStorage` (setting the
currently held value) and for `CurrentColorSchemeStorage` (any valid input
whose resolved value equals the cached one). -/
theorem claim_C5_idempotent (pst : PreferredSchemeStorage)
    (st : CurrentColorSchemeStorage) (pref sys v : String)
    (hv : isThreeState v)
    (hres : resolveScheme pref sys v = st.currentColorScheme) :
    pst.setScheme pst.preferredColorScheme = (pst, [], [])
    ∧ st.setScheme pref sys v = Except.ok (st, [], []) := by
  constructor
  · unfold PreferredSchemeStorage.setScheme
    rw [if_pos rfl]
  · rw [setScheme_eq_resolve st pref sys v hv, if_pos hres]

/-- Witness for C5: re-setting the held value `dark` on the preferred store,
and writing `auto` that resolves to the already-cached `light`. -/
theorem claim_C5_witness :
    PreferredSchemeStorage.setScheme { preferredColorScheme := "dark" }
        ("dark") = ({ preferredColorScheme := "dark" }, [], [])
    ∧ CurrentColorSchemeStorage.setScheme { currentColorScheme := "light" }
        ("light") ("dark") ("auto") =
        Except.ok ({ currentColorScheme := "light" }, [], []) :=
  claim_C5_idempotent { preferredColorScheme := "dark" }
    { currentColorScheme := "light" } ("light") ("dark") ("auto")
    (by decide) (by decide)

/-- C6 (evaluation at the failing input): with the in-memory value `dark`, an
external storage event for the preferred key carrying the invalid value
`"banana"` updates the in-memory value to the coerced `auto` and performs no
storage write — but notifies subscribers with the raw `"banana"`, not with
the coerced `auto` that the claim (and the source's own `onSchemeChange`
documentation) promises. -/
theorem claim_C6_raw_payload :
    PreferredSchemeStorage.storageEvent { preferredColorScheme := "dark" }
        ("preferredColorScheme") (some ("banana")) =
      ({ preferredColorScheme := "auto" }, [], [some ("banana")]) := by
  decide

/-- States of `CurrentColorSchemeStorage` reachable from a construction with
a two-state system scheme and a three-state preferred scheme, by any sequence
of successful setter calls (each reading two-state/three-state storages). -/
inductive ReachableCur : CurrentColorSchemeStorage → Prop where
  | init (sys pref : String) (sess : Option String) :
      isTwoState sys → isThreeState pref →
      ReachableCur (CurrentColorSchemeStorage.construct sys pref sess)
  | step (st st' : CurrentColorSchemeStorage) (pref sys v : String)
      (w e : List String) :
      ReachableCur st → isTwoState sys → isThreeState pref →
      st.setScheme pref sys v = Except.ok (st', w, e) →
      ReachableCur st'

/-- C7: in every reachable state of `CurrentColorSchemeStorage` the cached
current scheme is exactly `dark` or `light` — never `auto` and never any
other value; the constructor establishes the invariant and every successful
setter call preserves it. -/
theorem claim_C7_invariant (st : CurrentColorSchemeStorage)
    (h : ReachableCur st) : isTwoState st.currentColorScheme := by
  induction h with
  | init sys pref sess hs hp =>
    rw [construct_currentColorScheme]
    split_ifs with h1 h2 h3
    · exact Or.inl rfl
    · exact Or.inr rfl
    · exact hs
    · rcases hp with h | h | h
      · exact Or.inl h
      · exact Or.inr h
      · exact absurd h h3
  | step st st' pref sys v w e hr hs hp hok ih =>
    by_cases hv : isThreeState v
    · rw [setScheme_eq_resolve st pref sys v hv] at hok
      by_cases hres : resolveScheme pref sys v = st.currentColorScheme
      · rw [if_pos hres] at hok
        simp only [Except.ok.injEq, Prod.mk.injEq] at hok
        rw [← hok.1]
        exact ih
      · rw [if_neg hres] at hok
        simp only [Except.ok.injEq, Prod.mk.injEq] at hok
        rw [← hok.1]
        exact resolveScheme_twoState pref sys v hp hs hv
    · unfold CurrentColorSchemeStorage.setScheme at hok
      unfold isThreeState at hv
      push_neg at hv
      rw [if_pos hv] at hok
      simp at hok

/-- Witness for C7: the state constructed from system `dark`, preferred
`auto`, and no session cache is two-state. -/
theorem claim_C7_witness :
    isTwoState (CurrentColorSchemeStorage.construct ("dark") ("auto")
      none).currentColorScheme :=
  claim_C7_invariant _
    (ReachableCur.init ("dark") ("auto") none (by decide) (by decide))

/-- C8: `getDefaultTheme()` returns the `darkThemeName` field exactly when the
cached scheme is `dark` and the `lightThemeName` field otherwise; it is a pure
function of the store state (the embedding returns only the name, with no
state change, write, or notification, mirroring the effect-free source body),
and reassigning the two public theme-name fields changes the result of the
next call accordingly. -/
theorem claim_C8_getDefaultTheme (st : CurrentColorSchemeStorage)
    (d l : String) :
    (st.currentColorScheme = "dark" →
      st.getDefaultTheme = st.darkThemeName)
    ∧ (st.currentColorScheme ≠ "dark" →
      st.getDefaultTheme = st.lightThemeName)
    ∧ ({ st with darkThemeName := d, lightThemeName := l } :
        CurrentColorSchemeStorage).getDefaultTheme =
        (if st.currentColorScheme = "dark" then d else l) := by
  unfold CurrentColorSchemeStorage.getDefaultTheme
  exact ⟨fun h => if_pos h, fun h => if_neg h, rfl⟩

/-- Witness for C8: with the cached scheme `dark` and reconfigured theme
names, `getDefaultTheme` returns the configured dark-theme name. -/
theorem claim_C8_witness :
    CurrentColorSchemeStorage.getDefaultTheme
      { currentColorScheme := "dark", darkThemeName := "midnight",
        lightThemeName := "day" } = "midnight" :=
  (claim_C8_getDefaultTheme
    { currentColorScheme := "dark", darkThemeName := "midnight",
      lightThemeName := "day" } ("x") ("y")).1 rfl

/-!
The event emitter (`@supercat1337/event-emitter`, vendored in the source).

A listener is identified by an id and, when invoked, performs one effect on
the emitter drawn from a small action language: do nothing, throw an
exception, remove a listener (the `removeListener` call an unsubscriber
makes), or register a new listener.  `emit` copies the listener list
(`this.events[event].slice()`) before iterating and wraps each invocation in
try/catch, so a throwing listener is skipped over (the source also logs the
exception to the console, an effect outside this model).

`removeListener` can emit `#no-listeners` and `on` can emit
`#has-listeners`, so dispatch nests; a fuel parameter bounds the nesting
depth (`run fuel` truncates nested dispatch when the fuel runs out; all
theorems use enough fuel).  The result of every operation is the new emitter
state together with the invocation log: the list of (event, listener id)
pairs in invocation order.
-/

/-- Effect a listener performs on the emitter when invoked. -/
inductive Act : Type where
  | pure : Act
  | throwErr : Act
  | removeL (event : String) (lid : Nat) : Act
  | addL (event : String) (lid : Nat) : Act
deriving DecidableEq

/-- A registered callback: its identity and its effect. -/
structure Listener where
  id : Nat
  act : Act
deriving DecidableEq

/-- The emitter's `events` object: a map from event name to the ordered
listener list, as an association list. -/
structure EventEmitter where
  events : List (String × List Listener)
deriving DecidableEq

/-- Lookup of `this.events[event]` (`none` when the key is absent). -/
def findEvent (evs : List (String × List Listener)) (event : String) :
    Option (List Listener) :=
  match evs with
  | [] => none
  | (e, ls) :: rest => if e = event then some ls else findEvent rest event

/-- Assignment `this.events[event] = ls`. -/
def setEvent (evs : List (String × List Listener)) (event : String)
    (ls : List Listener) : List (String × List Listener) :=
  match evs with
  | [] => [(event, ls)]
  | (e, ls0) :: rest =>
    if e = event then (e, ls) :: rest
    else (e, ls0) :: setEvent rest event ls

/-- The regex test `^(#has-listeners|#no-listeners)$`. -/
def isMetaEvent (event : String) : Bool :=
  event == "#has-listeners" || event == "#no-listeners"

/-- `indexOf(listener) > -1`, with listener identity modelled by id. -/
def containsId (ls : List Listener) (lid : Nat) : Bool :=
  ls.any fun l => l.id == lid

/-- The `splice` of the first occurrence found by `indexOf`. -/
def removeFirstListener (ls : List Listener) (lid : Nat) : List Listener :=
  match ls with
  | [] => []
  | l :: rest => if l.id = lid then rest else l :: removeFirstListener rest lid

/-- Invocation log: (event, listener id) pairs in invocation order. -/
abbrev Log := List (String × Nat)

/-- The loop body of `emit`: iterate over the pre-taken copy `ls` of the
listener list, invoking each listener (logging `(event, id)`) and applying
its effect via `step`, which also returns the log of any nested dispatch. -/
def dispatchList (step : Act → EventEmitter → EventEmitter × Log)
    (event : String) :
    List Listener → EventEmitter → Log → EventEmitter × Log
  | [], em, log => (em, log)
  | l :: rest, em, log =>
    let r := step l.act em
    dispatchList step event rest r.1 (log ++ [(event, l.id)] ++ r.2)

/-- The operations of the emitter that can nest. -/
inductive ECall : Type where
  | emit (event : String) : ECall
  | runAct (a : Act) : ECall
  | onCall (event : String) (l : Listener) : ECall
  | removeCall (event : String) (lid : Nat) : ECall

/-- Fueled interpreter for the emitter.
`emit`: return if the key is absent, else iterate over a copy of the listener
list, catching exceptions per listener.  `runAct`: the body of one listener.
`onCall`: push the listener, then emit `#has-listeners` if a non-meta event
went from zero listeners to one.  `removeCall`: splice out the listener if
present, then emit `#no-listeners` if a non-meta event became empty. -/
def run : Nat → EventEmitter → ECall → EventEmitter × Log
  | 0, em, _ => (em, [])
  | fuel + 1, em, ECall.emit event =>
    match findEvent em.events event with
    | none => (em, [])
    | some ls =>
      dispatchList (fun a em2 => run fuel em2 (ECall.runAct a)) event ls em []
  | fuel + 1, em, ECall.runAct a =>
    match a with
    | Act.pure => (em, [])
    | Act.throwErr => (em, [])
    | Act.removeL event lid => run fuel em (ECall.removeCall event lid)
    | Act.addL event lid =>
      run fuel em (ECall.onCall event { id := lid, act := Act.pure })
  | fuel + 1, em, ECall.onCall event l =>
    let ls2 := (findEvent em.events event).getD [] ++ [l]
    let em2 : EventEmitter := { events := setEvent em.events event ls2 }
    if isMetaEvent event = false ∧ ls2.length = 1 then
      run fuel em2 (ECall.emit ("#has-listeners"))
    else (em2, [])
  | fuel + 1, em, ECall.removeCall event lid =>
    match findEvent em.events event with
    | none => (em, [])
    | some ls =>
      if containsId ls lid then
        let ls2 := removeFirstListener ls lid
        let em2 : EventEmitter := { events := setEvent em.events event ls2 }
        if isMetaEvent event = false ∧ ls2.length = 0 then
          run fuel em2 (ECall.emit ("#no-listeners"))
        else (em2, [])
      else (em, [])

/-- `EventEmitter.prototype.emit`. -/
def EventEmitter.emit (fuel : Nat) (em : EventEmitter) (event : String) :
    EventEmitter × Log :=
  run fuel em (ECall.emit event)

/-- `EventEmitter.prototype.on`. -/
def EventEmitter.on (fuel : Nat) (em : EventEmitter) (event : String)
    (l : Listener) : EventEmitter × Log :=
  run fuel em (ECall.onCall event l)

/-- `EventEmitter.prototype.removeListener`. -/
def EventEmitter.removeListener (fuel : Nat) (em : EventEmitter)
    (event : String) (lid : Nat) : EventEmitter × Log :=
  run fuel em (ECall.removeCall event lid)

/-- The ids invoked for one event, in order, read off an invocation log. -/
def invokedFor (event : String) (log : Log) : List Nat :=
  (log.filter fun p => p.1 == event).map Prod.snd

lemma invokedFor_append (event : String) (a b : Log) :
    invokedFor event (a ++ b) = invokedFor event a ++ invokedFor event b := by
  simp [invokedFor]

lemma invokedFor_of_meta (event : String) (log : Log)
    (hm : isMetaEvent event = false)
    (h : ∀ p ∈ log, isMetaEvent p.1 = true) :
    invokedFor event log = [] := by
  unfold invokedFor
  rw [List.filter_eq_nil_iff.mpr, List.map_nil]
  intro p hp
  simp only [beq_iff_eq]
  intro he
  have h2 := h p hp
  rw [he, hm] at h2
  exact Bool.noConfusion h2

lemma dispatchList_log_mem (step : Act → EventEmitter → EventEmitter × Log)
    (event : String) :
    ∀ (ls : List Listener) (em : EventEmitter) (log : Log) (p : String × Nat),
      p ∈ (dispatchList step event ls em log).2 →
      p ∈ log ∨ p.1 = event ∨ ∃ a em2, p ∈ (step a em2).2 := by
  intro ls
  induction ls with
  | nil =>
    intro em log p hp
    exact Or.inl hp
  | cons l rest ih =>
    intro em log p hp
    rcases ih (step l.act em).1 (log ++ [(event, l.id)] ++ (step l.act em).2)
        p hp with h | h | h
    · rcases List.mem_append.mp h with h2 | h2
      · rcases List.mem_append.mp h2 with h3 | h3
        · exact Or.inl h3
        · refine Or.inr (Or.inl ?_)
          rcases List.mem_singleton.mp h3 with rfl
          rfl
      · exact Or.inr (Or.inr ⟨l.act, em, h2⟩)
    · exact Or.inr (Or.inl h)
    · exact Or.inr (Or.inr h)

lemma run_log_meta :
    ∀ (fuel : Nat) (em : EventEmitter) (c : ECall),
      (∀ e, c = ECall.emit e → isMetaEvent e = true) →
      ∀ p ∈ (run fuel em c).2, isMetaEvent p.1 = true := by
  intro fuel
  induction fuel with
  | zero =>
    intro em c _ p hp
    simp [run] at hp
  | succ n ih =>
    intro em c hc p hp
    match c with
    | ECall.emit e =>
      have he : isMetaEvent e = true := hc e rfl
      rw [show run (n + 1) em (ECall.emit e) =
          (match findEvent em.events e with
           | none => (em, [])
           | some ls =>
             dispatchList (fun a em2 => run n em2 (ECall.runAct a)) e ls em [])
          from rfl] at hp
      cases hfind : findEvent em.events e with
      | none => rw [hfind] at hp; simp at hp
      | some ls =>
        rw [hfind] at hp
        rcases dispatchList_log_mem _ e ls em [] p hp with h | h | h
        · simp at h
        · rw [h]; exact he
        · rcases h with ⟨a, em2, hmem⟩
          exact ih em2 (ECall.runAct a) (by intro e2 h2; cases h2) p hmem
    | ECall.runAct a =>
      match a with
      | Act.pure => simp [run] at hp
      | Act.throwErr => simp [run] at hp
      | Act.removeL e lid =>
        exact ih em (ECall.removeCall e lid) (by intro e2 h2; cases h2) p
          (by
            rw [show run (n + 1) em (ECall.runAct (Act.removeL e lid)) =
                run n em (ECall.removeCall e lid) from rfl] at hp
            exact hp)
      | Act.addL e lid =>
        exact ih em (ECall.onCall e { id := lid, act := Act.pure })
          (by intro e2 h2; cases h2) p
          (by
            rw [show run (n + 1) em (ECall.runAct (Act.addL e lid)) =
                run n em (ECall.onCall e { id := lid, act := Act.pure })
                from rfl] at hp
            exact hp)
    | ECall.onCall e l =>
      rw [show run (n + 1) em (ECall.onCall e l) =
          (let ls2 := (findEvent em.events e).getD [] ++ [l]
           let em2 : EventEmitter := { events := setEvent em.events e ls2 }
           if isMetaEvent e = false ∧ ls2.length = 1 then
             run n em2 (ECall.emit ("#has-listeners"))
           else (em2, [])) from rfl] at hp
      simp only at hp
      split at hp
      · exact ih _ (ECall.emit ("#has-listeners"))
          (by intro e2 h2; cases h2; rfl) p hp
      · simp at hp
    | ECall.removeCall e lid =>
      rw [show run (n + 1) em (ECall.removeCall e lid) =
          (match findEvent em.events e with
           | none => (em, [])
           | some ls =>
             if containsId ls lid then
               let ls2 := removeFirstListener ls lid
               let em2 : EventEmitter :=
                 { events := setEvent em.events e ls2 }
               if isMetaEvent e = false ∧ ls2.length = 0 then
                 run n em2 (ECall.emit ("#no-listeners"))
               else (em2, [])
             else (em, [])) from rfl] at hp
      cases hfind : findEvent em.events e with
      | none => rw [hfind] at hp; simp at hp
      | some ls =>
        rw [hfind] at hp
        simp only at hp
        split at hp
        · split at hp
          · exact ih _ (ECall.emit ("#no-listeners"))
              (by intro e2 h2; cases h2; rfl) p hp
          · simp at hp
        · simp at hp

lemma dispatchList_invokedFor (fuel : Nat) (event : String)
    (hm : isMetaEvent event = false) :
    ∀ (ls : List Listener) (em : EventEmitter) (log : Log),
      invokedFor event
          (dispatchList (fun a em2 => run fuel em2 (ECall.runAct a)) event ls
            em log).2 =
        invokedFor event log ++ ls.map Listener.id := by
  intro ls
  induction ls with
  | nil =>
    intro em log
    simp [dispatchList]
  | cons l rest ih =>
    intro em log
    rw [show dispatchList (fun a em2 => run fuel em2 (ECall.runAct a)) event
        (l :: rest) em log =
        dispatchList (fun a em2 => run fuel em2 (ECall.runAct a)) event rest
          (run fuel em (ECall.runAct l.act)).1
          (log ++ [(event, l.id)] ++ (run fuel em (ECall.runAct l.act)).2)
        from rfl]
    rw [ih]
    rw [invokedFor_append, invokedFor_append]
    rw [invokedFor_of_meta event (run fuel em (ECall.runAct l.act)).2 hm
      (run_log_meta fuel em (ECall.runAct l.act) (by intro e2 h2; cases h2))]
    simp [invokedFor]

/-- For a non-meta event with listener list `ls` at the start of the emit,
the invocation log for that event is exactly `ls` in order. -/
lemma emit_invoked (fuel : Nat) (em : EventEmitter) (event : String)
    (ls : List Listener) (hm : isMetaEvent event = false)
    (hfind : findEvent em.events event = some ls) :
    invokedFor event (EventEmitter.emit (fuel + 1) em event).2 =
      ls.map Listener.id := by
  unfold EventEmitter.emit
  rw [show run (fuel + 1) em (ECall.emit event) =
      (match findEvent em.events event with
       | none => (em, [])
       | some ls2 =>
         dispatchList (fun a em2 => run fuel em2 (ECall.runAct a)) event ls2
           em []) from rfl, hfind]
  rw [dispatchList_invokedFor fuel event hm ls em []]
  rfl

lemma findEvent_setEvent (evs : List (String × List Listener))
    (event : String) (ls : List Listener) :
    findEvent (setEvent evs event ls) event = some ls := by
  induction evs with
  | nil => simp [setEvent, findEvent]
  | cons p rest ih =>
    rcases p with ⟨e, ls0⟩
    by_cases h : e = event
    · simp [setEvent, findEvent, h]
    · simp [setEvent, findEvent, h, ih]

lemma findEvent_setEvent_ne (evs : List (String × List Listener))
    (event e2 : String) (ls : List Listener) (hne : e2 ≠ event) :
    findEvent (setEvent evs event ls) e2 = findEvent evs e2 := by
  induction evs with
  | nil => simp [setEvent, findEvent, Ne.symm hne]
  | cons p rest ih =>
    rcases p with ⟨e, ls0⟩
    by_cases h : e = event
    · subst h
      simp [setEvent, findEvent, Ne.symm hne]
    · simp [setEvent, findEvent, h, ih]

lemma run_emit_absent (fuel : Nat) (em : EventEmitter) (event : String)
    (h : findEvent em.events event = none) :
    run fuel em (ECall.emit event) = (em, []) := by
  cases fuel with
  | zero => rfl
  | succ n =>
    rw [show run (n + 1) em (ECall.emit event) =
        (match findEvent em.events event with
         | none => (em, [])
         | some ls =>
           dispatchList (fun a em2 => run n em2 (ECall.runAct a)) event ls em
             []) from rfl, h]

/-- C9: when a (non-meta) event is emitted, every listener registered for it
at that moment is invoked, exactly once, synchronously within the emit, in
registration order; this holds for arbitrary listener behaviors, in
particular when some listener throws — the exception is caught (and logged,
an effect outside the model) so every remaining listener is still invoked.
The stored list is in registration order because `on` appends to it (second
conjunct, stated for an emitter with no `#has-listeners` subscribers so the
nested meta dispatch cannot rearrange anything). -/
theorem claim_C9_sync_order (fuel : Nat) (em : EventEmitter) (event : String)
    (ls : List Listener) (l : Listener) (hm : isMetaEvent event = false)
    (hfind : findEvent em.events event = some ls)
    (hhas : findEvent em.events ("#has-listeners") = none) :
    invokedFor event (EventEmitter.emit (fuel + 1) em event).2 =
      ls.map Listener.id
    ∧ findEvent (EventEmitter.on (fuel + 1) em event l).1.events event =
      some (ls ++ [l]) := by
  have hne : event ≠ "#has-listeners" := by
    intro h
    rw [h] at hm
    simp [isMetaEvent] at hm
  constructor
  · exact emit_invoked fuel em event ls hm hfind
  · unfold EventEmitter.on
    rw [show run (fuel + 1) em (ECall.onCall event l) =
        (let ls2 := (findEvent em.events event).getD [] ++ [l]
         let em2 : EventEmitter := { events := setEvent em.events event ls2 }
         if isMetaEvent event = false ∧ ls2.length = 1 then
           run fuel em2 (ECall.emit ("#has-listeners"))
         else (em2, [])) from rfl]
    simp only [hfind, Option.getD_some]
    split
    · rw [run_emit_absent fuel _ ("#has-listeners") (by
        rw [findEvent_setEvent_ne em.events event ("#has-listeners")
          (ls ++ [l]) (fun h => hne h.symm)]
        exact hhas)]
      exact findEvent_setEvent em.events event (ls ++ [l])
    · exact findEvent_setEvent em.events event (ls ++ [l])

/-- Witness for C9: a three-listener emitter where the first listener throws
and the second unsubscribes the third mid-dispatch; all three are invoked, in
registration order, and `on` appends a fourth listener. -/
theorem claim_C9_witness :
    invokedFor ("current-scheme-change")
      (EventEmitter.emit 3
        { events := [(("current-scheme-change"),
          [{ id := 1, act := Act.throwErr },
           { id := 2, act := Act.removeL ("current-scheme-change") 3 },
           { id := 3, act := Act.pure }])] }
        ("current-scheme-change")).2 = [1, 2, 3]
    ∧ findEvent
        (EventEmitter.on 3
          { events := [(("current-scheme-change"),
            [{ id := 1, act := Act.throwErr },
             { id := 2, act := Act.removeL ("current-scheme-change") 3 },
             { id := 3, act := Act.pure }])] }
          ("current-scheme-change") { id := 4, act := Act.pure }).1.events
        ("current-scheme-change") =
      some
        [{ id := 1, act := Act.throwErr },
         { id := 2, act := Act.removeL ("current-scheme-change") 3 },
         { id := 3, act := Act.pure }, { id := 4, act := Act.pure }] :=
  claim_C9_sync_order 2
    { events := [(("current-scheme-change"),
      [{ id := 1, act := Act.throwErr },
       { id := 2, act := Act.removeL ("current-scheme-change") 3 },
       { id := 3, act := Act.pure }])] }
    ("current-scheme-change")
    [{ id := 1, act := Act.throwErr },
     { id := 2, act := Act.removeL ("current-scheme-change") 3 },
     { id := 3, act := Act.pure }]
    { id := 4, act := Act.pure } (by decide) (by decide) (by decide)

/-- C10: the callbacks invoked for an in-flight (non-meta) event are exactly
the listener list as it stood when the emit began — emit iterates over a
copy — so the invoked set does not depend on what the callbacks do: two
emitters whose listener lists for the event carry the same ids invoke the
same callbacks even if their listeners unsubscribe themselves or others,
subscribe new listeners, or throw during the notification. -/
theorem claim_C10_snapshot (fuel1 fuel2 : Nat) (em1 em2 : EventEmitter)
    (event : String) (ls1 ls2 : List Listener)
    (hm : isMetaEvent event = false)
    (h1 : findEvent em1.events event = some ls1)
    (h2 : findEvent em2.events event = some ls2)
    (hid : ls1.map Listener.id = ls2.map Listener.id) :
    invokedFor event (EventEmitter.emit (fuel1 + 1) em1 event).2 =
      invokedFor event (EventEmitter.emit (fuel2 + 1) em2 event).2 := by
  rw [emit_invoked fuel1 em1 event ls1 hm h1,
    emit_invoked fuel2 em2 event ls2 hm h2, hid]

/-- Witness for C10: an emitter whose two listeners do nothing invokes the
same callbacks as one whose first listener unsubscribes the second and whose
second subscribes a new listener mid-dispatch. -/
theorem claim_C10_witness :
    invokedFor ("preferred-scheme-change")
      (EventEmitter.emit 3
        { events := [(("preferred-scheme-change"),
          [{ id := 1, act := Act.pure }, { id := 2, act := Act.pure }])] }
        ("preferred-scheme-change")).2 =
    invokedFor ("preferred-scheme-change")
      (EventEmitter.emit 3
        { events := [(("preferred-scheme-change"),
          [{ id := 1, act := Act.removeL ("preferred-scheme-change") 2 },
           { id := 2, act := Act.addL ("preferred-scheme-change") 9 }])] }
        ("preferred-scheme-change")).2 :=
  claim_C10_snapshot 2 2
    { events := [(("preferred-scheme-change"),
      [{ id := 1, act := Act.pure }, { id := 2, act := Act.pure }])] }
    { events := [(("preferred-scheme-change"),
      [{ id := 1, act := Act.removeL ("preferred-scheme-change") 2 },
       { id := 2, act := Act.addL ("preferred-scheme-change") 9 }])] }
    ("preferred-scheme-change")
    [{ id := 1, act := Act.pure }, { id := 2, act := Act.pure }]
    [{ id := 1, act := Act.removeL ("preferred-scheme-change") 2 },
     { id := 2, act := Act.addL ("preferred-scheme-change") 9 }]
    (by decide) (by decide) (by decide) (by decide)

end ColorScheme
